import Mathlib

/-!
Shallow embedding of the real-time cable monitoring core of this repository
(`src/detector/monitor.py`, class `CableMonitor`), together with proofs of the
specification claims about it.

Modelling conventions:
* Python `dict` readings are modelled by the `Reading` structure; a key that may
  be absent is an `Option` field.
* Wall-clock times (`datetime.now()`, `time.time()`) are whole seconds, passed
  explicitly as a `now : Nat` parameter.  Clock reads inside one pass are
  modelled by a single `now` value (the real clock may return the same second
  for consecutive reads, so every behaviour of this model is a possible
  behaviour of the code).
* `collections.deque(maxlen=k)` is a list with `boundedAppend k` (evict oldest).
* `queue.Queue()` (constructed with no `maxsize`) is an unbounded list, appended
  on `put`.
* The per-sensor dict `self.sensor_states` is an association list in insertion
  order (Python dicts preserve insertion order and have no duplicate keys).
* The anomaly detector (`self.anomaly_detector`) is a parameter of type
  `Classifier`: `none` models "no detector configured or not trained"
  (`hasattr` / `is_trained` false); `some f` a trained detector, where
  `f r = none` models `predict_single` raising an exception on reading `r`
  and `f r = some (b, s)` a successful prediction.
* Callback invocations are modelled by the event/alert lists the operations
  return: each returned event is handed to every registered callback of the
  corresponding kind.  Exceptions in callbacks are caught by the code and do
  not alter monitor state, so callbacks need no further modelling.
* Rationals stand for Python floats; scores and rates in this code stay in
  ranges where float rounding does not affect any claim.  The `%`/`.0f`
  formatting in two alert descriptions is rendered by exact half-up rational
  rounding (`pct1`, `int0f`); no claim depends on those two strings.
-/

namespace CableGuard

/-- A sensor reading: the dict produced by the simulator, with the keys the
monitor reads (`sensor_id`, `timestamp`, `value`) and the keys the monitor may
attach (`is_anomaly_detected`, `anomaly_score`). -/
structure Reading where
  sensor_id : Option String
  timestamp : Option Nat
  value : ℚ
  is_anomaly_detected : Option Bool
  anomaly_score : Option ℚ
  deriving DecidableEq, Repr

/-- Per-sensor mutable record (`self.sensor_states[sensor_id]`).  `status` is
the literal Python string: "unknown", "active" or "timeout". -/
structure SensorState where
  last_seen : Option Nat
  consecutive_anomalies : Nat
  recent_readings : List Reading
  status : String
  deriving DecidableEq, Repr

/-- The default-factory value of `self.sensor_states`. -/
def defaultSensorState : SensorState :=
  { last_seen := none
    consecutive_anomalies := 0
    recent_readings := []
    status := "unknown" }

/-- The dict pushed to `self.anomaly_queue` by `_handle_anomaly`. -/
structure AnomalyEvent where
  timestamp : Nat
  sensor_id : String
  reading : Reading
  consecutive_count : Nat
  deriving DecidableEq, Repr

/-- The dict built by `_handle_sensor_timeout` and handed to the registered
`on_sensor_failure` callbacks. -/
structure TimeoutEvent where
  timestamp : Nat
  sensor_id : String
  timeout_duration : Int
  event_type : String
  deriving DecidableEq, Repr

/-- The `alert_data` dict passed to `_raise_alert`; each caller fills a subset
of the keys. -/
structure AlertData where
  sensor_id : Option String
  count : Option Nat
  rate : Option ℚ
  rate_threshold : Option ℚ
  timeout_duration : Option Int
  timestamp : Nat
  deriving DecidableEq, Repr

/-- The alert dict built by `_raise_alert`. -/
structure Alert where
  alert_id : String
  alert_type : String
  timestamp : Nat
  severity : String
  data : AlertData
  description : String
  deriving DecidableEq, Repr

/-- The state of a `CableMonitor` instance: configuration, buffers, queues,
counters and per-sensor states. -/
structure Monitor where
  monitoring_interval : ℚ
  buffer_size : Nat
  is_monitoring : Bool
  data_buffer : List Reading
  anomaly_queue : List AnomalyEvent
  alert_queue : List Alert
  total_readings : Nat
  anomalies_detected : Nat
  alerts_raised : Nat
  start_time : Option Nat
  last_reading_time : Option Nat
  consecutive_threshold : Nat
  anomaly_rate_threshold : ℚ
  sensor_timeout : Nat
  critical_sensors : List String
  sensor_states : List (String × SensorState)
  deriving DecidableEq, Repr

/-- `CableMonitor.__init__(monitoring_interval=1.0, buffer_size=1000)` with the
default alert rules. -/
def initMonitor (monitoring_interval : ℚ := 1) (buffer_size : Nat := 1000) :
    Monitor :=
  { monitoring_interval := monitoring_interval
    buffer_size := buffer_size
    is_monitoring := false
    data_buffer := []
    anomaly_queue := []
    alert_queue := []
    total_readings := 0
    anomalies_detected := 0
    alerts_raised := 0
    start_time := none
    last_reading_time := none
    consecutive_threshold := 3
    anomaly_rate_threshold := 1/5
    sensor_timeout := 300
    critical_sensors := []
    sensor_states := [] }

/-- The last `k` elements of a list (all of it when it is shorter). -/
def lastN (k : Nat) (xs : List α) : List α := xs.drop (xs.length - k)

/-- `deque(maxlen=maxlen).append(x)`: append on the right, evict from the left
when over capacity. -/
def boundedAppend (maxlen : Nat) (xs : List α) (x : α) : List α :=
  lastN maxlen (xs ++ [x])

/-- Dict lookup in the sensor-state store. -/
def lookupState (ss : List (String × SensorState)) (sid : String) :
    Option SensorState :=
  (ss.find? (fun p => p.1 = sid)).map Prod.snd

/-- The implicit `defaultdict` creation (and the explicit creation in
`_get_sensor_state`): insert the default state at the end iff the key is
absent (dict insertion order). -/
def ensureSensor (ss : List (String × SensorState)) (sid : String) :
    List (String × SensorState) :=
  if (ss.find? (fun p => p.1 = sid)).isSome then ss
  else ss ++ [(sid, defaultSensorState)]

/-- In-place mutation of the state stored under a key
(`self.sensor_states[sid][...] = ...`). -/
def modifySensor (ss : List (String × SensorState)) (sid : String)
    (f : SensorState → SensorState) : List (String × SensorState) :=
  ss.map (fun p => if p.1 = sid then (p.1, f p.2) else p)

/-- `CableMonitor._get_alert_severity`: the fixed type-to-severity map with
default "medium". -/
def getAlertSeverity (alert_type : String) : String :=
  if alert_type = "consecutive_anomalies" then "high"
  else if alert_type = "high_anomaly_rate" then "medium"
  else if alert_type = "sensor_timeout" then "high"
  else if alert_type = "critical_sensor_anomaly" then "critical"
  else "medium"

/-- Python `f"{x}"` on an optional string: `None` prints as "None". -/
def optStr (o : Option String) : String :=
  match o with
  | none => "None"
  | some s => s

/-- Python `f"{x}"` on an optional int: `None` prints as "None". -/
def optNatStr (o : Option Nat) : String :=
  match o with
  | none => "None"
  | some n => Nat.repr n

/-- Rendering of `f"{q:.1%}"` by exact half-up rational rounding. -/
def pct1 (q : ℚ) : String :=
  let m : Nat := (q * 1000 + 1/2).floor.toNat
  Nat.repr (m / 10) ++ "." ++ Nat.repr (m % 10) ++ "%"

/-- Rendering of `f"{x:.0f}"` on a whole number of seconds. -/
def int0f (x : Int) : String :=
  if x < 0 then "-" ++ Nat.repr (-x).toNat else Nat.repr x.toNat

/-- `CableMonitor._get_alert_description`: the fixed per-type description
templates with default `"Alert type: {t}"`. -/
def getAlertDescription (alert_type : String) (d : AlertData) : String :=
  if alert_type = "consecutive_anomalies" then
    "Sensor " ++ optStr d.sensor_id ++ " has " ++ optNatStr d.count ++
      " consecutive anomalies"
  else if alert_type = "high_anomaly_rate" then
    "High anomaly rate detected: " ++ pct1 (d.rate.getD 0) ++
      " (threshold: " ++ pct1 (d.rate_threshold.getD 0) ++ ")"
  else if alert_type = "sensor_timeout" then
    "Sensor " ++ optStr d.sensor_id ++ " timeout for " ++
      int0f (d.timeout_duration.getD 0) ++ " seconds"
  else "Alert type: " ++ alert_type

/-- The alert id `f"alert_{int(time.time())}_{alert_type}"`. -/
def alertIdOf (tSec : Nat) (alert_type : String) : String :=
  "alert_" ++ Nat.repr tSec ++ "_" ++ alert_type

/-- The alert dict built inside `_raise_alert` from the raising second, the
type and the data. -/
def mkAlert (now : Nat) (alert_type : String) (d : AlertData) : Alert :=
  { alert_id := alertIdOf now alert_type
    alert_type := alert_type
    timestamp := now
    severity := getAlertSeverity alert_type
    data := d
    description := getAlertDescription alert_type d }

/-- `CableMonitor._raise_alert`: bump the alert counter, build the alert, push
it to the (unbounded) alert queue.  The returned alert is also what every
registered `on_alert` callback receives. -/
def raiseAlert (m : Monitor) (now : Nat) (alert_type : String)
    (d : AlertData) : Monitor × Alert :=
  let a : Alert := mkAlert now alert_type d
  ({ m with alerts_raised := m.alerts_raised + 1
            alert_queue := m.alert_queue ++ [a] }, a)

/-- The anomaly detector collaborator: `none` when absent or untrained;
`some f` when trained, where `f r` is `none` if `predict_single` raises on
`r` and `some (is_anomaly, score)` otherwise. -/
abbrev Classifier : Type := Option (Reading → Option (Bool × ℚ))

/-- `CableMonitor._handle_anomaly`: bump the global anomaly counter and the
sensor's consecutive counter, then build the event (`reading['timestamp']`
raises `KeyError` when the key is absent — modelled by the `none` branch, in
which the event is neither queued nor delivered and the caller's `except`
takes over) and push it to the (unbounded) anomaly queue.  A `some` event is
also what every registered `on_anomaly` callback receives. -/
def handleAnomaly (m : Monitor) (r : Reading) (sid : String) :
    Monitor × Option AnomalyEvent :=
  let ss := ensureSensor m.sensor_states sid
  let ss := modifySensor ss sid (fun st =>
    { st with consecutive_anomalies := st.consecutive_anomalies + 1 })
  let m1 := { m with anomalies_detected := m.anomalies_detected + 1
                     sensor_states := ss }
  match r.timestamp with
  | none => (m1, none)
  | some t =>
    let cnt :=
      ((lookupState m1.sensor_states sid).getD defaultSensorState).consecutive_anomalies
    let ev : AnomalyEvent :=
      { timestamp := t, sensor_id := sid, reading := r, consecutive_count := cnt }
    ({ m1 with anomaly_queue := m1.anomaly_queue ++ [ev] }, some ev)

/-- The final contents of the reading dict after `_process_single_reading`:
the same dict object sits in the data buffer and the recent-readings history,
so in-place enrichment is modelled by storing this value.  The `some (true, s)`
/ `timestamp = none` case is the `KeyError` in `_handle_anomaly`, whose
`except` overwrites the fields with `False` / `0.0`. -/
def enrich (clf : Classifier) (r : Reading) : Reading :=
  match clf with
  | none => r
  | some f =>
    match f r with
    | none => { r with is_anomaly_detected := some false, anomaly_score := some 0 }
    | some (false, s) =>
      { r with is_anomaly_detected := some false, anomaly_score := some s }
    | some (true, s) =>
      match r.timestamp with
      | none => { r with is_anomaly_detected := some false, anomaly_score := some 0 }
      | some _ =>
        { r with is_anomaly_detected := some true, anomaly_score := some s }

/-- `CableMonitor._process_single_reading`.  Returns the updated monitor and
the anomaly events emitted (at most one).  A reading with no `sensor_id` is
skipped entirely. -/
def processSingleReading (m : Monitor) (now : Nat) (clf : Classifier)
    (r : Reading) : Monitor × List AnomalyEvent :=
  match r.sensor_id with
  | none => (m, [])
  | some sid =>
    let ts := r.timestamp.getD now
    let rStored := enrich clf r
    let m1 := { m with total_readings := m.total_readings + 1
                       last_reading_time := some ts
                       data_buffer := boundedAppend m.buffer_size m.data_buffer rStored }
    let ss2 := modifySensor (ensureSensor m1.sensor_states sid) sid (fun st =>
      { st with last_seen := some ts
                recent_readings := boundedAppend 50 st.recent_readings rStored
                status := "active" })
    let m2 := { m1 with sensor_states := ss2 }
    match clf with
    | none => (m2, [])
    | some f =>
      match f r with
      | none => (m2, [])
      | some (isAnom, _score) =>
        if isAnom then
          ((handleAnomaly m2 rStored sid).1,
           (handleAnomaly m2 rStored sid).2.toList)
        else
          let ss3 := modifySensor m2.sensor_states sid
            (fun st => { st with consecutive_anomalies := 0 })
          ({ m2 with sensor_states := ss3 }, [])

/-- `CableMonitor._process_readings`: process a batch in order, collecting the
emitted anomaly events. -/
def processReadings (m : Monitor) (now : Nat) (clf : Classifier)
    (rs : List Reading) : Monitor × List AnomalyEvent :=
  rs.foldl (fun acc r =>
    ((processSingleReading acc.1 now clf r).1,
     acc.2 ++ (processSingleReading acc.1 now clf r).2)) (m, [])

/-- Does `_check_sensor_timeouts` fire for this entry at time `now` (threshold
`tmo` seconds): `last_seen` set, status "active", elapsed strictly above the
threshold. -/
def timeoutFires (tmo : Nat) (now : Nat) (e : String × SensorState) : Bool :=
  match e.2.last_seen with
  | none => false
  | some ls => e.2.status = "active" ∧ (tmo : Int) < (now : Int) - (ls : Int)

/-- The event dict built by `_handle_sensor_timeout`. -/
def mkTimeoutEvent (now : Nat) (e : String × SensorState) : TimeoutEvent :=
  { timestamp := now
    sensor_id := e.1
    timeout_duration := (now : Int) - ((e.2.last_seen.getD 0 : Nat) : Int)
    event_type := "sensor_timeout" }

/-- `_handle_sensor_timeout`'s mutation of one sensor state
(`self.sensor_states[sensor_id]['status'] = 'timeout'`). -/
def timeoutState (st : SensorState) : SensorState := { st with status := "timeout" }

/-- One iteration of the `_check_sensor_timeouts` loop, for one dict entry
(the body of `_handle_sensor_timeout` inlined: set the status to "timeout" and
emit the timeout event). -/
def timeoutStep (tmo now : Nat) (acc : Monitor × List TimeoutEvent)
    (e : String × SensorState) : Monitor × List TimeoutEvent :=
  if timeoutFires tmo now e then
    ({ acc.1 with sensor_states :=
        modifySensor acc.1.sensor_states e.1 timeoutState },
      acc.2 ++ [mkTimeoutEvent now e])
  else acc

/-- `CableMonitor._check_sensor_timeouts`: walk the sensor dict; for every
firing entry set its status to "timeout" and emit the timeout event.  The
returned events are what the registered `on_sensor_failure` callbacks
receive; no alert is raised here. -/
def checkSensorTimeouts (m : Monitor) (now : Nat) :
    Monitor × List TimeoutEvent :=
  m.sensor_states.foldl (timeoutStep m.sensor_timeout now) (m, [])

/-- The `alert_data` dict `_analyze_alerts` builds for a consecutive-anomalies
alert on one sensor entry. -/
def consAlertData (now : Nat) (e : String × SensorState) : AlertData :=
  { sensor_id := some e.1
    count := some e.2.consecutive_anomalies
    rate := none
    rate_threshold := none
    timeout_duration := none
    timestamp := now }

/-- One iteration of the consecutive-anomalies loop of `_analyze_alerts`. -/
def consStep (th now : Nat) (acc : Monitor × List Alert)
    (e : String × SensorState) : Monitor × List Alert :=
  if th ≤ e.2.consecutive_anomalies then
    ((raiseAlert acc.1 now "consecutive_anomalies" (consAlertData now e)).1,
     acc.2 ++ [(raiseAlert acc.1 now "consecutive_anomalies" (consAlertData now e)).2])
  else acc

/-- The `alert_data` dict `_analyze_alerts` builds for a high-anomaly-rate
alert. -/
def rateAlertData (now : Nat) (rate thr : ℚ) : AlertData :=
  { sensor_id := none
    count := none
    rate := some rate
    rate_threshold := some thr
    timeout_duration := none
    timestamp := now }

/-- The anomaly fraction of the most recent `min 100 (length buf)` buffered
readings (`r.get('is_anomaly_detected', False)` counts as anomalous iff
`some true`). -/
def recentAnomalyRate (buf : List Reading) : ℚ :=
  let recent := lastN 100 buf
  ((recent.countP (fun r => r.is_anomaly_detected.getD false)) : ℚ) /
    ((recent.length : Nat) : ℚ)

/-- `CableMonitor._analyze_alerts`: one `consecutive_anomalies` alert per
sensor at or above the threshold, then (with at least 100 buffered readings)
the `high_anomaly_rate` check over the last 100 readings. -/
def analyzeAlerts (m : Monitor) (now : Nat) : Monitor × List Alert :=
  let m1 := (m.sensor_states.foldl (consStep m.consecutive_threshold now) (m, [])).1
  let as1 := (m.sensor_states.foldl (consStep m.consecutive_threshold now) (m, [])).2
  if 100 ≤ m1.data_buffer.length then
    let rate : ℚ := recentAnomalyRate m1.data_buffer
    if m.anomaly_rate_threshold < rate then
      ((raiseAlert m1 now "high_anomaly_rate"
          (rateAlertData now rate m.anomaly_rate_threshold)).1,
       as1 ++ [(raiseAlert m1 now "high_anomaly_rate"
          (rateAlertData now rate m.anomaly_rate_threshold)).2])
    else (m1, as1)
  else (m1, as1)

/-- The dict returned by `CableMonitor.get_monitoring_stats`. -/
structure Stats where
  is_monitoring : Bool
  uptime_seconds : Int
  total_readings : Nat
  anomalies_detected : Nat
  alerts_raised : Nat
  anomaly_rate : ℚ
  active_sensors : Nat
  timeout_sensors : Nat
  buffer_utilization : ℚ
  last_reading_time : Option Nat
  deriving DecidableEq, Repr

/-- `CableMonitor.get_monitoring_stats`.  `none` models the
`ZeroDivisionError` that `len(self.data_buffer) / self.buffer_size` raises
when the monitor was constructed with `buffer_size = 0`; every other division
is guarded by `max(1, ...)`. -/
def getMonitoringStats (m : Monitor) (now : Nat) : Option Stats :=
  if m.buffer_size = 0 then none
  else some
    { is_monitoring := m.is_monitoring
      uptime_seconds :=
        match m.start_time with
        | none => 0
        | some t => (now : Int) - (t : Int)
      total_readings := m.total_readings
      anomalies_detected := m.anomalies_detected
      alerts_raised := m.alerts_raised
      anomaly_rate := (m.anomalies_detected : ℚ) / ((max 1 m.total_readings : Nat) : ℚ)
      active_sensors := (m.sensor_states.filter (fun e => e.2.status = "active")).length
      timeout_sensors := (m.sensor_states.filter (fun e => e.2.status = "timeout")).length
      buffer_utilization := (m.data_buffer.length : ℚ) / (m.buffer_size : ℚ)
      last_reading_time := m.last_reading_time }

/-- `CableMonitor.start_monitoring` state change (the spawned loop itself is
the composition of the phase functions above): a no-op warning when already
running, otherwise record the start time and mark running. -/
def startMonitoring (m : Monitor) (now : Nat) : Monitor :=
  if m.is_monitoring then m
  else { m with is_monitoring := true, start_time := some now }

/-- The sensor-state store after the `_check_sensor_timeouts` walk, expressed
entry by entry (each firing entry of the snapshot `es` gets its status set). -/
def stFoldTimeout (tmo now : Nat) (es ss : List (String × SensorState)) :
    List (String × SensorState) :=
  es.foldl (fun acc e =>
    if timeoutFires tmo now e then modifySensor acc e.1 timeoutState else acc) ss

/-- The timeout events `_check_sensor_timeouts` emits, entry by entry. -/
def timeoutEventsList (tmo now : Nat) (es : List (String × SensorState)) :
    List TimeoutEvent :=
  es.filterMap (fun e =>
    if timeoutFires tmo now e then some (mkTimeoutEvent now e) else none)

/-- The consecutive-anomalies alerts one `_analyze_alerts` pass raises, entry
by entry. -/
def consAlertsList (th now : Nat) (es : List (String × SensorState)) :
    List Alert :=
  es.filterMap (fun e =>
    if th ≤ e.2.consecutive_anomalies then
      some (mkAlert now "consecutive_anomalies" (consAlertData now e))
    else none)

/-- The high-anomaly-rate alerts (zero or one) one `_analyze_alerts` pass
raises. -/
def rateAlertsList (thr : ℚ) (now : Nat) (buf : List Reading) : List Alert :=
  if 100 ≤ buf.length then
    if thr < recentAnomalyRate buf then
      [mkAlert now "high_anomaly_rate" (rateAlertData now (recentAnomalyRate buf) thr)]
    else []
  else []

/-- Iterated alert-analysis passes (one per monitoring tick). -/
def analyzeNTimes (now : Nat) : Nat → Monitor → Monitor
  | 0, m => m
  | n + 1, m => analyzeNTimes now n (analyzeAlerts m now).1

/-- The alert types that appear in the `_get_alert_severity` map. -/
def knownAlertTypes : List String :=
  ["consecutive_anomalies", "high_anomaly_rate", "sensor_timeout",
   "critical_sensor_anomaly"]

/-- Value of a decimal digit character. -/
def decDigitVal (c : Char) : Nat := c.toNat - 48

/-- Value of a decimal digit string (most significant first). -/
def decValue (l : List Char) : Nat :=
  l.foldl (fun a c => 10 * a + decDigitVal c) 0

/-- A plain simulator reading used in concrete instantiations. -/
def rdg (sid : String) (ts : Nat) (v : ℚ) : Reading :=
  { sensor_id := some sid
    timestamp := some ts
    value := v
    is_anomaly_detected := none
    anomaly_score := none }

/-- A malformed reading whose `sensor_id` key is missing. -/
def noIdReading : Reading :=
  { sensor_id := none
    timestamp := some 4
    value := 7
    is_anomaly_detected := none
    anomaly_score := none }

/-- A trained classifier that labels every reading anomalous (score 1.0). -/
def alwaysAnomalous : Classifier := some (fun _ => some (true, 1))

/-- A trained classifier whose `predict_single` raises on every reading. -/
def alwaysFailing : Classifier := some (fun _ => none)

/-- A reading as `alwaysAnomalous` enrichment stores it. -/
def eRdg (sid : String) (ts : Nat) (v : ℚ) : Reading :=
  { sensor_id := some sid
    timestamp := some ts
    value := v
    is_anomaly_detected := some true
    anomaly_score := some 1 }

/-- A reachable monitor with one sensor `s1` at three consecutive anomalies. -/
def mHot1 : Monitor :=
  (processReadings (initMonitor 1 1000) 0 alwaysAnomalous
    [rdg "s1" 1 5, rdg "s1" 2 5, rdg "s1" 3 5]).1

/-- The stored state of `s1` in `mHot1`. -/
def hotState1 : SensorState :=
  { last_seen := some 3
    consecutive_anomalies := 3
    recent_readings := [eRdg "s1" 1 5, eRdg "s1" 2 5, eRdg "s1" 3 5]
    status := "active" }

/-- A reachable monitor with sensors `s1` and `s2` both at three consecutive
anomalies (three anomalous readings each were ingested). -/
def mTwoHot : Monitor :=
  (processReadings (initMonitor 1 1000) 0 alwaysAnomalous
    [rdg "s1" 1 5, rdg "s1" 2 5, rdg "s1" 3 5,
     rdg "s2" 1 6, rdg "s2" 2 6, rdg "s2" 3 6]).1

/-- A reachable monitor with one sensor `s1` at two consecutive anomalies. -/
def mTwoAnoms : Monitor :=
  (processReadings (initMonitor 1 1000) 0 alwaysAnomalous
    [rdg "s1" 1 5, rdg "s1" 2 5]).1

/-- A reachable monitor with one active sensor `s1` last seen at time 0. -/
def mOneActive : Monitor :=
  (processReadings (initMonitor 1 1000) 0 none [rdg "s1" 0 5]).1

/-- The stored state of `s1` in `mOneActive`. -/
def activeState1 : SensorState :=
  { last_seen := some 0
    consecutive_anomalies := 0
    recent_readings := [rdg "s1" 0 5]
    status := "active" }

/-- Selector for the consecutive-anomalies alerts that name a given sensor. -/
def consPred (sid : String) (a : Alert) : Bool :=
  decide (a.alert_type = "consecutive_anomalies" ∧ a.data.sensor_id = some sid)

/-- Selector for the timeout events of a given sensor. -/
def tmoPred (sid : String) (ev : TimeoutEvent) : Bool :=
  decide (ev.sensor_id = sid)

/-!  Helper lemmas: association-list store, `lastN`, `enrich`, and the
projections of `_process_single_reading`. -/

theorem lookupState_cons (k : String) (st : SensorState)
    (ss : List (String × SensorState)) (sid : String) :
    lookupState ((k, st) :: ss) sid =
      if k = sid then some st else lookupState ss sid := by
  by_cases h : k = sid <;> simp [lookupState, List.find?_cons, h]

theorem lookupState_modify_ne (ss : List (String × SensorState))
    (sid t : String) (f : SensorState → SensorState) (h : t ≠ sid) :
    lookupState (modifySensor ss sid f) t = lookupState ss t := by
  induction ss with
  | nil => rfl
  | cons p ps ih =>
    rcases p with ⟨k, st⟩
    by_cases hk : k = sid
    · subst hk
      have hkt : k ≠ t := fun hh => h hh.symm
      simp [modifySensor, lookupState_cons, hkt] at ih ⊢
      exact ih
    · simp [modifySensor, hk, lookupState_cons] at ih ⊢
      by_cases hkt : k = t <;> simp [hkt, ih]

theorem modifySensor_cons (k : String) (st : SensorState)
    (ps : List (String × SensorState)) (sid : String)
    (f : SensorState → SensorState) :
    modifySensor ((k, st) :: ps) sid f =
      (if k = sid then (k, f st) else (k, st)) :: modifySensor ps sid f := rfl

theorem lookupState_modify_self (ss : List (String × SensorState))
    (sid : String) (f : SensorState → SensorState) :
    lookupState (modifySensor ss sid f) sid = (lookupState ss sid).map f := by
  induction ss with
  | nil => rfl
  | cons p ps ih =>
    rcases p with ⟨k, st⟩
    by_cases hk : k = sid
    · subst hk; simp [modifySensor_cons, lookupState_cons]
    · simp [modifySensor_cons, hk, lookupState_cons, ih]

theorem lookupState_append (ss ts : List (String × SensorState))
    (sid : String) :
    lookupState (ss ++ ts) sid =
      (lookupState ss sid).or (lookupState ts sid) := by
  unfold lookupState
  rw [List.find?_append]
  rcases h : ss.find? (fun p => p.1 = sid) with _ | p <;> rw [h] <;> simp

theorem lookupState_ensure_ne (ss : List (String × SensorState))
    (sid t : String) (h : t ≠ sid) :
    lookupState (ensureSensor ss sid) t = lookupState ss t := by
  unfold ensureSensor
  split
  · rfl
  · rw [lookupState_append]
    have hone : lookupState [(sid, defaultSensorState)] t = none := by
      have hst : sid ≠ t := fun hh => h hh.symm
      simp [lookupState_cons, hst, lookupState]
    rw [hone, Option.or_none]

theorem keys_modifySensor (ss : List (String × SensorState)) (sid : String)
    (f : SensorState → SensorState) :
    (modifySensor ss sid f).map Prod.fst = ss.map Prod.fst := by
  induction ss with
  | nil => rfl
  | cons p ps ih =>
    rcases p with ⟨k, st⟩
    by_cases hk : k = sid <;> simp [modifySensor, hk] at ih ⊢ <;> exact ih

theorem lookupState_eq_some_of_mem (ss : List (String × SensorState))
    (sid : String) (st : SensorState)
    (hnd : (ss.map Prod.fst).Nodup) (hmem : (sid, st) ∈ ss) :
    lookupState ss sid = some st := by
  induction ss with
  | nil => simp at hmem
  | cons p ps ih =>
    rcases p with ⟨k, st0⟩
    simp only [List.map_cons, List.nodup_cons] at hnd
    rcases List.mem_cons.mp hmem with h | h
    · rcases Prod.mk.injEq .. ▸ h with ⟨h1, h2⟩
      cases h
      simp [lookupState_cons]
    · have hk : k ≠ sid := by
        intro hh
        exact hnd.1 (hh ▸ (List.mem_map.mpr ⟨(sid, st), h, rfl⟩))
      simp [lookupState_cons, hk]
      exact ih hnd.2 h

theorem lookupState_isSome_iff (ss : List (String × SensorState))
    (sid : String) :
    (lookupState ss sid).isSome = true ↔ sid ∈ ss.map Prod.fst := by
  induction ss with
  | nil => simp [lookupState, List.find?]
  | cons p ps ih =>
    rcases p with ⟨k, st⟩
    by_cases hk : k = sid
    · subst hk; simp [lookupState_cons]
    · have hk2 : sid ≠ k := fun hh => hk hh.symm
      simp only [lookupState_cons, hk, if_false, List.map_cons, List.mem_cons]
      simpa [hk2] using ih

theorem lookupState_ensure_self (ss : List (String × SensorState))
    (sid : String) :
    lookupState (ensureSensor ss sid) sid =
      some ((lookupState ss sid).getD defaultSensorState) := by
  unfold ensureSensor
  rcases hf : ss.find? (fun p => p.1 = sid) with _ | p
  · rw [hf]
    have h1 : lookupState ss sid = none := by
      unfold lookupState; rw [hf]; rfl
    simp only [Option.isSome_none, Bool.false_eq_true, if_false]
    rw [lookupState_append, h1]
    simp [lookupState_cons, lookupState]
  · rw [hf]
    have h1 : lookupState ss sid = some p.2 := by
      unfold lookupState; rw [hf]; rfl
    simp [h1]

theorem keys_ensure_of_mem (ss : List (String × SensorState)) (sid : String)
    (h : sid ∈ ss.map Prod.fst) :
    ensureSensor ss sid = ss := by
  unfold ensureSensor
  have : (lookupState ss sid).isSome = true := (lookupState_isSome_iff ss sid).mpr h
  unfold lookupState at this
  rcases hf : ss.find? (fun p => p.1 = sid) with _ | p
  · rw [hf] at this; simp at this
  · rw [hf]; rfl

theorem lastN_of_le {k : Nat} {xs : List α} (h : xs.length ≤ k) :
    lastN k xs = xs := by
  unfold lastN
  rw [Nat.sub_eq_zero_of_le h, List.drop_zero]

theorem length_lastN (k : Nat) (xs : List α) :
    (lastN k xs).length = min k xs.length := by
  unfold lastN
  rw [List.length_drop]
  omega

theorem lastN_append_lastN (k : Nat) (ys zs : List α) :
    lastN k (lastN k ys ++ zs) = lastN k (ys ++ zs) := by
  by_cases h : ys.length ≤ k
  · rw [lastN_of_le h]
  · have h2 : k < ys.length := Nat.lt_of_not_le h
    unfold lastN
    have hlen : (ys.drop (ys.length - k)).length = k := by
      rw [List.length_drop]; omega
    simp only [List.length_append, hlen, List.drop_append_eq_append_drop,
      List.drop_drop, List.length_drop]
    congr 1
    · congr 1
      omega
    · congr 1
      omega

theorem enrich_timestamp (clf : Classifier) (r : Reading) :
    (enrich clf r).timestamp = r.timestamp := by
  rcases clf with _ | f
  · rfl
  · rcases hf : f r with _ | ⟨b, s⟩
    · simp [enrich, hf]
    · rcases b with _ | _
      · simp [enrich, hf]
      · rcases ht : r.timestamp with _ | t <;> simp [enrich, hf, ht]

theorem enrich_sensor_id (clf : Classifier) (r : Reading) :
    (enrich clf r).sensor_id = r.sensor_id := by
  rcases clf with _ | f
  · rfl
  · rcases hf : f r with _ | ⟨b, s⟩
    · simp [enrich, hf]
    · rcases b with _ | _
      · simp [enrich, hf]
      · rcases ht : r.timestamp with _ | t <;> simp [enrich, hf, ht]

theorem psr_skip (m : Monitor) (now : Nat) (clf : Classifier) {r : Reading}
    (h : r.sensor_id = none) :
    processSingleReading m now clf r = (m, []) := by
  unfold processSingleReading
  rw [h]

theorem psr_fields (m : Monitor) (now : Nat) (clf : Classifier) (r : Reading)
    (sid : String) (h : r.sensor_id = some sid) :
    (processSingleReading m now clf r).1.total_readings = m.total_readings + 1 ∧
    (processSingleReading m now clf r).1.last_reading_time = some (r.timestamp.getD now) ∧
    (processSingleReading m now clf r).1.data_buffer =
      boundedAppend m.buffer_size m.data_buffer (enrich clf r) ∧
    (processSingleReading m now clf r).1.buffer_size = m.buffer_size ∧
    (processSingleReading m now clf r).1.alerts_raised = m.alerts_raised ∧
    (processSingleReading m now clf r).1.alert_queue = m.alert_queue ∧
    (processSingleReading m now clf r).1.start_time = m.start_time ∧
    (processSingleReading m now clf r).1.is_monitoring = m.is_monitoring ∧
    (processSingleReading m now clf r).1.monitoring_interval = m.monitoring_interval ∧
    (processSingleReading m now clf r).1.consecutive_threshold = m.consecutive_threshold ∧
    (processSingleReading m now clf r).1.anomaly_rate_threshold = m.anomaly_rate_threshold ∧
    (processSingleReading m now clf r).1.sensor_timeout = m.sensor_timeout ∧
    (processSingleReading m now clf r).1.critical_sensors = m.critical_sensors := by
  rcases clf with _ | f
  · simp [processSingleReading, h]
  · rcases hf : f r with _ | ⟨b, s⟩
    · simp [processSingleReading, h, hf]
    · rcases b with _ | _
      · simp [processSingleReading, h, hf]
      · rcases ht : r.timestamp with _ | t <;>
          simp [processSingleReading, handleAnomaly, enrich, h, hf, ht]

theorem psr_anomaly_queue (m : Monitor) (now : Nat) (clf : Classifier)
    (r : Reading) :
    (processSingleReading m now clf r).1.anomaly_queue =
      m.anomaly_queue ++ (processSingleReading m now clf r).2 := by
  rcases hs : r.sensor_id with _ | sid
  · simp [psr_skip m now clf hs]
  · rcases clf with _ | f
    · simp [processSingleReading, hs]
    · rcases hf : f r with _ | ⟨b, s⟩
      · simp [processSingleReading, hs, hf]
      · rcases b with _ | _
        · simp [processSingleReading, hs, hf]
        · rcases ht : r.timestamp with _ | t <;>
            simp [processSingleReading, handleAnomaly, enrich, hs, hf, ht]

theorem psr_states_ne (m : Monitor) (now : Nat) (clf : Classifier)
    (r : Reading) (sid t : String) (h : r.sensor_id = some sid)
    (ht2 : t ≠ sid) :
    lookupState (processSingleReading m now clf r).1.sensor_states t =
      lookupState m.sensor_states t := by
  rcases clf with _ | f
  · simp [processSingleReading, h, lookupState_modify_ne, lookupState_ensure_ne, ht2]
  · rcases hf : f r with _ | ⟨b, s⟩
    · simp [processSingleReading, h, hf, lookupState_modify_ne,
        lookupState_ensure_ne, ht2]
    · rcases b with _ | _
      · simp [processSingleReading, h, hf, lookupState_modify_ne,
          lookupState_ensure_ne, ht2]
      · rcases ht : r.timestamp with _ | t0 <;>
          simp [processSingleReading, handleAnomaly, enrich, h, hf, ht,
            lookupState_modify_ne, lookupState_ensure_ne, ht2]

theorem psr_fail_state (m : Monitor) (now : Nat)
    (f : Reading → Option (Bool × ℚ)) (r : Reading) (sid : String)
    (h : r.sensor_id = some sid) (hf : f r = none) :
    lookupState (processSingleReading m now (some f) r).1.sensor_states sid =
      some { (lookupState m.sensor_states sid).getD defaultSensorState with
               last_seen := some (r.timestamp.getD now)
               recent_readings := boundedAppend 50
                 ((lookupState m.sensor_states sid).getD defaultSensorState).recent_readings
                 (enrich (some f) r)
               status := "active" } := by
  simp [processSingleReading, h, hf, lookupState_modify_self, lookupState_ensure_self]

theorem processReadings_acc (now : Nat) (clf : Classifier)
    (rs : List Reading) (m : Monitor) (acc : List AnomalyEvent) :
    rs.foldl (fun p r =>
        ((processSingleReading p.1 now clf r).1,
         p.2 ++ (processSingleReading p.1 now clf r).2)) (m, acc) =
      ((processReadings m now clf rs).1,
       acc ++ (processReadings m now clf rs).2) := by
  induction rs generalizing m acc with
  | nil => simp [processReadings]
  | cons r rs ih =>
    simp only [List.foldl_cons]
    rw [ih]
    have h2 : processReadings m now clf (r :: rs) =
        ((processReadings (processSingleReading m now clf r).1 now clf rs).1,
         (processSingleReading m now clf r).2 ++
           (processReadings (processSingleReading m now clf r).1 now clf rs).2) := by
      unfold processReadings
      simp only [List.foldl_cons]
      simpa using ih (processSingleReading m now clf r).1 (processSingleReading m now clf r).2
    rw [h2]
    simp [List.append_assoc]

theorem processReadings_cons (m : Monitor) (now : Nat) (clf : Classifier)
    (r : Reading) (rs : List Reading) :
    processReadings m now clf (r :: rs) =
      ((processReadings (processSingleReading m now clf r).1 now clf rs).1,
       (processSingleReading m now clf r).2 ++
         (processReadings (processSingleReading m now clf r).1 now clf rs).2) := by
  unfold processReadings
  simp only [List.foldl_cons]
  simpa using processReadings_acc now clf rs (processSingleReading m now clf r).1
    (processSingleReading m now clf r).2

theorem consFold_snd (th now : Nat) (es : List (String × SensorState))
    (m : Monitor) (acc : List Alert) :
    (es.foldl (consStep th now) (m, acc)).2 = acc ++ consAlertsList th now es := by
  induction es generalizing m acc with
  | nil => simp [consAlertsList]
  | cons e es ih =>
    by_cases hc : th ≤ e.2.consecutive_anomalies
    · simp only [List.foldl_cons, consStep, hc, if_true]
      rw [ih]
      simp [consAlertsList, List.filterMap_cons, hc, raiseAlert]
    · simp only [List.foldl_cons, consStep, hc, if_false]
      rw [ih]
      simp [consAlertsList, List.filterMap_cons, hc]

theorem consFold_fst (th now : Nat) (es : List (String × SensorState))
    (m : Monitor) (acc : List Alert) :
    (es.foldl (consStep th now) (m, acc)).1 =
      { m with alerts_raised := m.alerts_raised + (consAlertsList th now es).length
               alert_queue := m.alert_queue ++ consAlertsList th now es } := by
  induction es generalizing m acc with
  | nil => simp [consAlertsList]
  | cons e es ih =>
    by_cases hc : th ≤ e.2.consecutive_anomalies
    · simp only [List.foldl_cons, consStep, hc, if_true]
      rw [ih]
      simp only [consAlertsList, List.filterMap_cons, hc, if_true, raiseAlert]
      simp [Monitor.mk.injEq, List.append_assoc]
      omega
    · simp only [List.foldl_cons, consStep, hc, if_false]
      rw [ih]
      simp [consAlertsList, List.filterMap_cons, hc]

theorem timeoutFold_snd (tmo now : Nat) (es : List (String × SensorState))
    (m : Monitor) (acc : List TimeoutEvent) :
    (es.foldl (timeoutStep tmo now) (m, acc)).2 =
      acc ++ timeoutEventsList tmo now es := by
  induction es generalizing m acc with
  | nil => simp [timeoutEventsList]
  | cons e es ih =>
    by_cases hc : timeoutFires tmo now e
    · simp only [List.foldl_cons, timeoutStep, hc, if_true]
      rw [ih]
      simp [timeoutEventsList, List.filterMap_cons, hc]
    · simp only [List.foldl_cons, timeoutStep, hc]
      simp only [Bool.false_eq_true, if_false]
      rw [ih]
      simp [timeoutEventsList, List.filterMap_cons, hc]

theorem timeoutFold_fst (tmo now : Nat) (es : List (String × SensorState))
    (m : Monitor) (acc : List TimeoutEvent) :
    (es.foldl (timeoutStep tmo now) (m, acc)).1 =
      { m with sensor_states := stFoldTimeout tmo now es m.sensor_states } := by
  induction es generalizing m acc with
  | nil => simp [stFoldTimeout]
  | cons e es ih =>
    by_cases hc : timeoutFires tmo now e
    · simp only [List.foldl_cons, timeoutStep, hc, if_true]
      rw [ih]
      simp [stFoldTimeout, hc]
    · simp only [List.foldl_cons, timeoutStep, hc]
      simp only [Bool.false_eq_true, if_false]
      rw [ih]
      simp [stFoldTimeout, hc]

theorem checkSensorTimeouts_snd (m : Monitor) (now : Nat) :
    (checkSensorTimeouts m now).2 =
      timeoutEventsList m.sensor_timeout now m.sensor_states := by
  unfold checkSensorTimeouts
  rw [timeoutFold_snd]
  simp

theorem checkSensorTimeouts_fst (m : Monitor) (now : Nat) :
    (checkSensorTimeouts m now).1 =
      { m with sensor_states :=
          stFoldTimeout m.sensor_timeout now m.sensor_states m.sensor_states } := by
  unfold checkSensorTimeouts
  rw [timeoutFold_fst]

theorem analyzeAlerts_snd (m : Monitor) (now : Nat) :
    (analyzeAlerts m now).2 =
      consAlertsList m.consecutive_threshold now m.sensor_states ++
        rateAlertsList m.anomaly_rate_threshold now m.data_buffer := by
  unfold analyzeAlerts
  simp only [consFold_fst, consFold_snd, List.nil_append]
  unfold rateAlertsList
  split_ifs with h1 h2 <;> simp [raiseAlert, recentAnomalyRate]

theorem analyzeAlerts_fst (m : Monitor) (now : Nat) :
    (analyzeAlerts m now).1 =
      { m with alerts_raised := m.alerts_raised + (analyzeAlerts m now).2.length
               alert_queue := m.alert_queue ++ (analyzeAlerts m now).2 } := by
  unfold analyzeAlerts
  simp only [consFold_fst, consFold_snd, List.nil_append]
  split_ifs with h1 h2
  · simp [raiseAlert, Monitor.mk.injEq, List.append_assoc]
    omega
  · simp
  · simp

theorem psr_alert_queue (m : Monitor) (now : Nat) (clf : Classifier)
    (r : Reading) :
    (processSingleReading m now clf r).1.alert_queue = m.alert_queue := by
  rcases hs : r.sensor_id with _ | sid
  · rw [psr_skip m now clf hs]
  · exact (psr_fields m now clf r sid hs).2.2.2.2.2.1

theorem psr_buffer (m : Monitor) (now : Nat) (clf : Classifier) (r : Reading) :
    (processSingleReading m now clf r).1.data_buffer =
      if r.sensor_id.isSome then
        boundedAppend m.buffer_size m.data_buffer (enrich clf r)
      else m.data_buffer := by
  rcases hs : r.sensor_id with _ | sid
  · rw [psr_skip m now clf hs]; simp [hs]
  · rw [(psr_fields m now clf r sid hs).2.2.1]; simp [hs]

theorem psr_buffer_size (m : Monitor) (now : Nat) (clf : Classifier)
    (r : Reading) :
    (processSingleReading m now clf r).1.buffer_size = m.buffer_size := by
  rcases hs : r.sensor_id with _ | sid
  · rw [psr_skip m now clf hs]
  · exact (psr_fields m now clf r sid hs).2.2.2.1

theorem processReadings_total (m : Monitor) (now : Nat) (clf : Classifier)
    (rs : List Reading) :
    (processReadings m now clf rs).1.total_readings =
      m.total_readings + rs.countP (fun x => x.sensor_id.isSome) := by
  induction rs generalizing m with
  | nil => simp [processReadings]
  | cons r rs ih =>
    rw [processReadings_cons]
    simp only []
    rw [ih]
    rcases hs : r.sensor_id with _ | sid
    · rw [psr_skip m now clf hs]
      simp [List.countP_cons, hs]
    · rw [(psr_fields m now clf r sid hs).1]
      simp only [List.countP_cons, hs, Option.isSome_some, if_true]
      omega

theorem processReadings_buffer (now : Nat) (clf : Classifier)
    (rs : List Reading) (m : Monitor)
    (hv : ∀ r ∈ rs, r.sensor_id.isSome)
    (hlen : m.data_buffer.length ≤ m.buffer_size) :
    (processReadings m now clf rs).1.data_buffer =
      lastN m.buffer_size (m.data_buffer ++ rs.map (enrich clf)) ∧
    (processReadings m now clf rs).1.buffer_size = m.buffer_size := by
  induction rs generalizing m with
  | nil =>
    simp only [processReadings, List.foldl_nil, List.map_nil, List.append_nil]
    exact ⟨(lastN_of_le hlen).symm, trivial⟩
  | cons r rs ih =>
    have hr : r.sensor_id.isSome := hv r (List.mem_cons_self r rs)
    have hbuf : (processSingleReading m now clf r).1.data_buffer =
        boundedAppend m.buffer_size m.data_buffer (enrich clf r) := by
      rw [psr_buffer]; simp [hr]
    have hbs := psr_buffer_size m now clf r
    have hlen2 : (processSingleReading m now clf r).1.data_buffer.length ≤
        (processSingleReading m now clf r).1.buffer_size := by
      rw [hbuf, hbs]
      unfold boundedAppend
      rw [length_lastN]
      omega
    have ihr := ih (processSingleReading m now clf r).1
      (fun x hx => hv x (List.mem_cons_of_mem r hx)) hlen2
    rw [processReadings_cons]
    simp only []
    refine ⟨?_, by rw [ihr.2, hbs]⟩
    rw [ihr.1, hbs, hbuf]
    unfold boundedAppend
    rw [lastN_append_lastN]
    simp [List.append_assoc]

/-- C3: over any finite batch, `total_readings` increases by exactly the number
of readings whose `sensor_id` is present, and a reading with a missing
`sensor_id` is skipped entirely: `_process_single_reading` returns the monitor
unchanged (no counter, buffer, timestamp or sensor-state change) and emits
nothing. -/
theorem C3_total_readings_and_skip (m : Monitor) (now : Nat) (clf : Classifier)
    (rs : List Reading) (r : Reading) (h : r.sensor_id = none) :
    (processReadings m now clf rs).1.total_readings =
      m.total_readings + rs.countP (fun x => x.sensor_id.isSome) ∧
    processSingleReading m now clf r = (m, []) :=
  ⟨processReadings_total m now clf rs, psr_skip m now clf h⟩

/-- Witness for C3 at a concrete batch: three readings, one of them without a
`sensor_id`, ingested into a fresh monitor. -/
theorem C3_witness :
    (processReadings (initMonitor 1 1000) 0 none
        [rdg "s1" 1 2, noIdReading, rdg "s2" 2 3]).1.total_readings =
      (initMonitor 1 1000).total_readings +
        ([rdg "s1" 1 2, noIdReading, rdg "s2" 2 3].countP
          (fun x => x.sensor_id.isSome)) ∧
    processSingleReading (initMonitor 1 1000) 0 none noIdReading =
      (initMonitor 1 1000, []) :=
  C3_total_readings_and_skip (initMonitor 1 1000) 0 none
    [rdg "s1" 1 2, noIdReading, rdg "s2" 2 3] noIdReading rfl

/-- C4: from a fresh monitor with positive configured capacity, after `n` valid
readings the data buffer holds exactly the most recent `min n capacity`
stored readings in insertion order (the stored reading is the ingested reading
as enriched in place), and `buffer_utilization` equals
`min n capacity / capacity`, which lies in `[0, 1]`. -/
theorem C4_ring_buffer (bs now : Nat) (clf : Classifier) (rs : List Reading)
    (hbs : 0 < bs) (hv : ∀ r ∈ rs, r.sensor_id.isSome) :
    (processReadings (initMonitor 1 bs) now clf rs).1.data_buffer =
      lastN bs (rs.map (enrich clf)) ∧
    (processReadings (initMonitor 1 bs) now clf rs).1.data_buffer.length =
      min rs.length bs ∧
    ∃ st, getMonitoringStats (processReadings (initMonitor 1 bs) now clf rs).1 now
        = some st ∧
      st.buffer_utilization = ((min rs.length bs : Nat) : ℚ) / (bs : ℚ) ∧
      0 ≤ st.buffer_utilization ∧ st.buffer_utilization ≤ 1 := by
  have hinit : (initMonitor 1 bs).data_buffer.length ≤ (initMonitor 1 bs).buffer_size := by
    simp [initMonitor]
  have hmain := processReadings_buffer now clf rs (initMonitor 1 bs) hv hinit
  have hbuf : (processReadings (initMonitor 1 bs) now clf rs).1.data_buffer =
      lastN bs (rs.map (enrich clf)) := by
    rw [hmain.1]; simp [initMonitor]
  have hsize : (processReadings (initMonitor 1 bs) now clf rs).1.buffer_size = bs := by
    rw [hmain.2]; rfl
  have hlength : (processReadings (initMonitor 1 bs) now clf rs).1.data_buffer.length
      = min rs.length bs := by
    rw [hbuf, length_lastN, List.length_map]
    omega
  refine ⟨hbuf, hlength, ?_⟩
  have hne : (processReadings (initMonitor 1 bs) now clf rs).1.buffer_size ≠ 0 := by
    rw [hsize]; omega
  refine ⟨_, by unfold getMonitoringStats; rw [if_neg hne], ?_, ?_, ?_⟩
  · simp only [hlength, hsize]
  · have h0 : (0 : ℚ) ≤ ((min rs.length bs : Nat) : ℚ) := by positivity
    have hb0 : (0 : ℚ) < (bs : ℚ) := by exact_mod_cast hbs
    simp only [hlength, hsize]
    positivity
  · simp only [hlength, hsize]
    rw [div_le_one (by exact_mod_cast hbs)]
    exact_mod_cast Nat.min_le_right rs.length bs

/-- Witness for C4 at a concrete run: capacity 2, three valid readings, no
classifier; the buffer keeps the last two readings. -/
theorem C4_witness :
    (processReadings (initMonitor 1 2) 9 none
        [rdg "a" 1 1, rdg "b" 2 2, rdg "c" 3 3]).1.data_buffer =
      lastN 2 ([rdg "a" 1 1, rdg "b" 2 2, rdg "c" 3 3].map (enrich none)) ∧
    (processReadings (initMonitor 1 2) 9 none
        [rdg "a" 1 1, rdg "b" 2 2, rdg "c" 3 3]).1.data_buffer.length =
      min ([rdg "a" 1 1, rdg "b" 2 2, rdg "c" 3 3].length) 2 ∧
    ∃ st, getMonitoringStats (processReadings (initMonitor 1 2) 9 none
        [rdg "a" 1 1, rdg "b" 2 2, rdg "c" 3 3]).1 9 = some st ∧
      st.buffer_utilization =
        ((min ([rdg "a" 1 1, rdg "b" 2 2, rdg "c" 3 3].length) 2 : Nat) : ℚ) / (2 : ℚ) ∧
      0 ≤ st.buffer_utilization ∧ st.buffer_utilization ≤ 1 :=
  C4_ring_buffer 2 9 none [rdg "a" 1 1, rdg "b" 2 2, rdg "c" 3 3]
    (by decide) (by decide)

/-- C10: processing one reading for sensor `sid` leaves the whole stored state
of every other sensor unchanged (in particular no entry is created for any
other sensor), and touches none of the alert counters or queues, the start
time, the lifecycle flag or the configuration. -/
theorem C10_frame (m : Monitor) (now : Nat) (clf : Classifier) (r : Reading)
    (sid t : String) (h : r.sensor_id = some sid) (ht : t ≠ sid) :
    lookupState (processSingleReading m now clf r).1.sensor_states t =
      lookupState m.sensor_states t ∧
    (processSingleReading m now clf r).1.alerts_raised = m.alerts_raised ∧
    (processSingleReading m now clf r).1.alert_queue = m.alert_queue ∧
    (processSingleReading m now clf r).1.start_time = m.start_time ∧
    (processSingleReading m now clf r).1.is_monitoring = m.is_monitoring ∧
    (processSingleReading m now clf r).1.buffer_size = m.buffer_size ∧
    (processSingleReading m now clf r).1.consecutive_threshold =
      m.consecutive_threshold ∧
    (processSingleReading m now clf r).1.anomaly_rate_threshold =
      m.anomaly_rate_threshold ∧
    (processSingleReading m now clf r).1.sensor_timeout = m.sensor_timeout ∧
    (processSingleReading m now clf r).1.critical_sensors = m.critical_sensors ∧
    (processSingleReading m now clf r).1.monitoring_interval =
      m.monitoring_interval := by
  have hf := psr_fields m now clf r sid h
  exact ⟨psr_states_ne m now clf r sid t h ht, hf.2.2.2.2.1, hf.2.2.2.2.2.1,
    hf.2.2.2.2.2.2.1, hf.2.2.2.2.2.2.2.1, hf.2.2.2.1, hf.2.2.2.2.2.2.2.2.2.1,
    hf.2.2.2.2.2.2.2.2.2.2.1, hf.2.2.2.2.2.2.2.2.2.2.2.1,
    hf.2.2.2.2.2.2.2.2.2.2.2.2, hf.2.2.2.2.2.2.2.2.1⟩

/-- Witness for C10 at a concrete input: an anomalous reading for `s1` is
processed while `s2` is absent from the store, and `s2` stays absent. -/
theorem C10_witness :
    lookupState (processSingleReading mTwoAnoms 9 alwaysAnomalous
        (rdg "s1" 9 4)).1.sensor_states "s2" =
      lookupState mTwoAnoms.sensor_states "s2" ∧
    (processSingleReading mTwoAnoms 9 alwaysAnomalous (rdg "s1" 9 4)).1.alerts_raised =
      mTwoAnoms.alerts_raised ∧
    (processSingleReading mTwoAnoms 9 alwaysAnomalous (rdg "s1" 9 4)).1.alert_queue =
      mTwoAnoms.alert_queue ∧
    (processSingleReading mTwoAnoms 9 alwaysAnomalous (rdg "s1" 9 4)).1.start_time =
      mTwoAnoms.start_time ∧
    (processSingleReading mTwoAnoms 9 alwaysAnomalous (rdg "s1" 9 4)).1.is_monitoring =
      mTwoAnoms.is_monitoring ∧
    (processSingleReading mTwoAnoms 9 alwaysAnomalous (rdg "s1" 9 4)).1.buffer_size =
      mTwoAnoms.buffer_size ∧
    (processSingleReading mTwoAnoms 9 alwaysAnomalous (rdg "s1" 9 4)).1.consecutive_threshold =
      mTwoAnoms.consecutive_threshold ∧
    (processSingleReading mTwoAnoms 9 alwaysAnomalous (rdg "s1" 9 4)).1.anomaly_rate_threshold =
      mTwoAnoms.anomaly_rate_threshold ∧
    (processSingleReading mTwoAnoms 9 alwaysAnomalous (rdg "s1" 9 4)).1.sensor_timeout =
      mTwoAnoms.sensor_timeout ∧
    (processSingleReading mTwoAnoms 9 alwaysAnomalous (rdg "s1" 9 4)).1.critical_sensors =
      mTwoAnoms.critical_sensors ∧
    (processSingleReading mTwoAnoms 9 alwaysAnomalous (rdg "s1" 9 4)).1.monitoring_interval =
      mTwoAnoms.monitoring_interval :=
  C10_frame mTwoAnoms 9 alwaysAnomalous (rdg "s1" 9 4) "s1" "s2" rfl (by decide)

/-- C9 counterexample: sensor `s1` stands at two consecutive anomalies; a
reading for `s1` is processed while the classifier raises.  The claim says the
consecutive counter is reset to 0 as for a non-anomalous reading; the code
leaves it at 2. -/
theorem C9_counterexample :
    (lookupState (processSingleReading mTwoAnoms 9 alwaysFailing
          (rdg "s1" 9 4)).1.sensor_states "s1").map
        (fun st => st.consecutive_anomalies) = some 2 ∧
    ¬ ((lookupState (processSingleReading mTwoAnoms 9 alwaysFailing
          (rdg "s1" 9 4)).1.sensor_states "s1").map
        (fun st => st.consecutive_anomalies) = some 0) := by
  constructor
  · decide
  · decide

/-- C9 (amended): when a configured and ready classifier raises on a reading,
the failure is caught per reading: the stored reading is marked
`is_anomaly_detected = False` with `anomaly_score = 0.0`, no anomaly event is
emitted, the rest of the batch is still processed — but the sensor's
consecutive-anomaly counter is left unchanged, not reset to 0 (the reset only
happens on a successful non-anomalous classification). -/
theorem C9_classifier_failure (m : Monitor) (now : Nat)
    (f : Reading → Option (Bool × ℚ)) (r : Reading) (sid : String)
    (rs : List Reading) (h : r.sensor_id = some sid) (hf : f r = none) :
    (enrich (some f) r).is_anomaly_detected = some false ∧
    (enrich (some f) r).anomaly_score = some 0 ∧
    (processSingleReading m now (some f) r).1.data_buffer =
      boundedAppend m.buffer_size m.data_buffer (enrich (some f) r) ∧
    (processSingleReading m now (some f) r).2 = [] ∧
    (lookupState (processSingleReading m now (some f) r).1.sensor_states sid).map
        (fun st => st.consecutive_anomalies) =
      some ((lookupState m.sensor_states sid).getD
        defaultSensorState).consecutive_anomalies ∧
    (processReadings m now (some f) (r :: rs)).1.total_readings =
      m.total_readings + 1 + rs.countP (fun x => x.sensor_id.isSome) := by
  refine ⟨by simp [enrich, hf], by simp [enrich, hf], ?_, ?_, ?_, ?_⟩
  · rw [psr_buffer]; simp [h]
  · simp [processSingleReading, h, hf]
  · rw [psr_fail_state m now f r sid h hf]
    simp
  · have ht := processReadings_total m now (some f) (r :: rs)
    simp only [List.countP_cons, h, Option.isSome_some, if_true] at ht
    omega

/-- Witness for C9 at a concrete input: the classifier raises on a reading for
`s1` (which stands at two consecutive anomalies) and one more reading for `s2`
follows in the batch. -/
theorem C9_witness :
    (enrich alwaysFailing (rdg "s1" 9 4)).is_anomaly_detected = some false ∧
    (enrich alwaysFailing (rdg "s1" 9 4)).anomaly_score = some 0 ∧
    (processSingleReading mTwoAnoms 9 alwaysFailing (rdg "s1" 9 4)).1.data_buffer =
      boundedAppend mTwoAnoms.buffer_size mTwoAnoms.data_buffer
        (enrich alwaysFailing (rdg "s1" 9 4)) ∧
    (processSingleReading mTwoAnoms 9 alwaysFailing (rdg "s1" 9 4)).2 = [] ∧
    (lookupState (processSingleReading mTwoAnoms 9 alwaysFailing
          (rdg "s1" 9 4)).1.sensor_states "s1").map
        (fun st => st.consecutive_anomalies) =
      some ((lookupState mTwoAnoms.sensor_states "s1").getD
        defaultSensorState).consecutive_anomalies ∧
    (processReadings mTwoAnoms 9 alwaysFailing
        [rdg "s1" 9 4, rdg "s2" 1 1]).1.total_readings =
      mTwoAnoms.total_readings + 1 +
        [rdg "s2" 1 1].countP (fun x => x.sensor_id.isSome) :=
  C9_classifier_failure mTwoAnoms 9 (fun _ => none) (rdg "s1" 9 4) "s1"
    [rdg "s2" 1 1] rfl rfl

theorem consPred_mkAlert (sid : String) (now : Nat) (e : String × SensorState) :
    consPred sid (mkAlert now "consecutive_anomalies" (consAlertData now e)) =
      decide (e.1 = sid) := by
  simp [consPred, mkAlert, consAlertData]

theorem consPred_rateAlert (sid : String) (now : Nat) (d : AlertData) :
    consPred sid (mkAlert now "high_anomaly_rate" d) = false := by
  simp [consPred, mkAlert]

theorem rateFilter_nil (thr : ℚ) (now : Nat) (buf : List Reading)
    (sid : String) :
    (rateAlertsList thr now buf).filter (consPred sid) = [] := by
  unfold rateAlertsList
  split_ifs <;> simp [List.filter_cons, consPred_rateAlert]

theorem consAlertsList_cons (th now : Nat) (e : String × SensorState)
    (es : List (String × SensorState)) :
    consAlertsList th now (e :: es) =
      (if th ≤ e.2.consecutive_anomalies then
        [mkAlert now "consecutive_anomalies" (consAlertData now e)] else []) ++
      consAlertsList th now es := by
  unfold consAlertsList
  rw [List.filterMap_cons]
  split_ifs with hc <;> simp [hc]

theorem consFilter_not_mem (th now : Nat) (sid : String) :
    ∀ es : List (String × SensorState), sid ∉ es.map Prod.fst →
      (consAlertsList th now es).filter (consPred sid) = [] := by
  intro es
  induction es with
  | nil => intro _; rfl
  | cons e es ih =>
    intro hn
    simp only [List.map_cons, List.mem_cons, not_or] at hn
    have hk : e.1 ≠ sid := fun hh => hn.1 hh.symm
    rw [consAlertsList_cons, List.filter_append, ih hn.2]
    split_ifs with hc
    · simp [List.filter_cons, consPred_mkAlert, hk]
    · simp

theorem consFilter_main (th now : Nat) :
    ∀ (es : List (String × SensorState)) (sid : String) (st : SensorState),
      (es.map Prod.fst).Nodup → (sid, st) ∈ es →
      (consAlertsList th now es).filter (consPred sid) =
        if th ≤ st.consecutive_anomalies then
          [mkAlert now "consecutive_anomalies" (consAlertData now (sid, st))]
        else [] := by
  intro es
  induction es with
  | nil => intro sid st _ hmem; simp at hmem
  | cons e es ih =>
    intro sid st hnd hmem
    simp only [List.map_cons, List.nodup_cons] at hnd
    rcases List.mem_cons.mp hmem with h | h
    · cases h.symm
      have hrest : (consAlertsList th now es).filter (consPred sid) = [] :=
        consFilter_not_mem th now sid es hnd.1
      rw [consAlertsList_cons, List.filter_append, hrest, List.append_nil]
      split_ifs with hc
      · simp [List.filter_cons, consPred_mkAlert]
      · simp
    · have hk : e.1 ≠ sid := by
        intro hh
        exact hnd.1 (hh ▸ List.mem_map.mpr ⟨(sid, st), h, rfl⟩)
      rw [consAlertsList_cons, List.filter_append, ih sid st hnd.2 h]
      split_ifs with hc hc2 hc2 <;>
        simp [List.filter_cons, consPred_mkAlert, hk]

/-- C5: in one `_analyze_alerts` pass, a sensor at or above the configured
consecutive-anomalies threshold gets exactly one `consecutive_anomalies`
alert, with severity "high", carrying that sensor's count, and whose
description contains the sensor id and the count; a sensor below the
threshold gets none. -/
theorem C5_consecutive_alerts (m : Monitor) (now : Nat) (sid : String)
    (st : SensorState) (hnd : (m.sensor_states.map Prod.fst).Nodup)
    (hmem : (sid, st) ∈ m.sensor_states) :
    ((analyzeAlerts m now).2.filter (consPred sid)).length =
      (if m.consecutive_threshold ≤ st.consecutive_anomalies then 1 else 0) ∧
    ∀ a ∈ (analyzeAlerts m now).2.filter (consPred sid),
      a.severity = "high" ∧
      a.data.count = some st.consecutive_anomalies ∧
      (∃ l1 l2, a.description.data = l1 ++ sid.data ++ l2) ∧
      (∃ l3 l4, a.description.data =
        l3 ++ (Nat.repr st.consecutive_anomalies).data ++ l4) := by
  have hsplit : (analyzeAlerts m now).2.filter (consPred sid) =
      if m.consecutive_threshold ≤ st.consecutive_anomalies then
        [mkAlert now "consecutive_anomalies" (consAlertData now (sid, st))]
      else [] := by
    rw [analyzeAlerts_snd, List.filter_append, rateFilter_nil,
      consFilter_main m.consecutive_threshold now m.sensor_states sid st hnd hmem]
    simp
  rw [hsplit]
  by_cases hc : m.consecutive_threshold ≤ st.consecutive_anomalies
  · rw [if_pos hc, if_pos hc]
    refine ⟨rfl, ?_⟩
    intro a ha
    rcases List.mem_singleton.mp ha with rfl
    refine ⟨rfl, rfl, ?_, ?_⟩
    · refine ⟨"Sensor ".data,
        (" has " ++ Nat.repr st.consecutive_anomalies ++
          " consecutive anomalies").data, ?_⟩
      simp [mkAlert, getAlertDescription, consAlertData, optStr, optNatStr,
        List.append_assoc]
    · refine ⟨("Sensor " ++ sid ++ " has ").data,
        " consecutive anomalies".data, ?_⟩
      simp [mkAlert, getAlertDescription, consAlertData, optStr, optNatStr,
        List.append_assoc]
  · rw [if_neg hc, if_neg hc]
    exact ⟨rfl, by intro a ha; simp at ha⟩

/-- Witness for C5 at a concrete pass: sensor `s1` stands at three consecutive
anomalies (threshold 3) and gets exactly one high-severity alert. -/
theorem C5_witness :
    ((analyzeAlerts mHot1 44).2.filter (consPred "s1")).length =
      (if mHot1.consecutive_threshold ≤ hotState1.consecutive_anomalies
        then 1 else 0) ∧
    ∀ a ∈ (analyzeAlerts mHot1 44).2.filter (consPred "s1"),
      a.severity = "high" ∧
      a.data.count = some hotState1.consecutive_anomalies ∧
      (∃ l1 l2, a.description.data = l1 ++ "s1".data ++ l2) ∧
      (∃ l3 l4, a.description.data =
        l3 ++ (Nat.repr hotState1.consecutive_anomalies).data ++ l4) :=
  C5_consecutive_alerts mHot1 44 "s1" hotState1 (by decide) (by decide)

theorem timeoutFires_iff (tmo now : Nat) (e : String × SensorState) :
    timeoutFires tmo now e = true ↔
      (e.2.status = "active" ∧ ∃ ls, e.2.last_seen = some ls ∧
        (tmo : Int) < (now : Int) - (ls : Int)) := by
  unfold timeoutFires
  rcases h : e.2.last_seen with _ | ls <;> simp [h]

theorem tmoPred_mk (sid : String) (now : Nat) (e : String × SensorState) :
    tmoPred sid (mkTimeoutEvent now e) = decide (e.1 = sid) := by
  simp [tmoPred, mkTimeoutEvent]

theorem timeoutEventsList_cons (tmo now : Nat) (e : String × SensorState)
    (es : List (String × SensorState)) :
    timeoutEventsList tmo now (e :: es) =
      (if timeoutFires tmo now e then [mkTimeoutEvent now e] else []) ++
        timeoutEventsList tmo now es := by
  unfold timeoutEventsList
  rw [List.filterMap_cons]
  split_ifs with hc <;> simp [hc]

theorem tmoFilter_not_fires (tmo now : Nat) (sid : String) :
    ∀ es : List (String × SensorState),
      (∀ st, (sid, st) ∈ es → timeoutFires tmo now (sid, st) = false) →
      (timeoutEventsList tmo now es).filter (tmoPred sid) = [] := by
  intro es
  induction es with
  | nil => intro _; rfl
  | cons e es ih =>
    intro hall
    rw [timeoutEventsList_cons, List.filter_append,
      ih (fun st hst => hall st (List.mem_cons_of_mem e hst))]
    by_cases hk : e.1 = sid
    · have he : e = (sid, e.2) := by
        rcases e with ⟨k, st0⟩; simp at hk; rw [hk]
      have hf : timeoutFires tmo now e = false := by
        rw [he]; exact hall e.2 (he ▸ List.mem_cons_self e es)
      simp [hf]
    · split_ifs with hc <;> simp [List.filter_cons, tmoPred_mk, hk]

theorem tmoFilter_fired (tmo now : Nat) (sid : String) (st : SensorState) :
    ∀ es : List (String × SensorState),
      (es.map Prod.fst).Nodup → (sid, st) ∈ es →
      timeoutFires tmo now (sid, st) = true →
      (timeoutEventsList tmo now es).filter (tmoPred sid) =
        [mkTimeoutEvent now (sid, st)] := by
  intro es
  induction es with
  | nil => intro _ hmem; simp at hmem
  | cons e es ih =>
    intro hnd hmem hfires
    simp only [List.map_cons, List.nodup_cons] at hnd
    rw [timeoutEventsList_cons, List.filter_append]
    rcases List.mem_cons.mp hmem with h | h
    · cases h.symm
      have hrest : (timeoutEventsList tmo now es).filter (tmoPred sid) = [] := by
        refine tmoFilter_not_fires tmo now sid es ?_
        intro st2 hst2
        exact absurd (List.mem_map.mpr ⟨(sid, st2), hst2, rfl⟩) hnd.1
      rw [hrest, if_pos hfires]
      simp [List.filter_cons, tmoPred_mk]
    · have hk : e.1 ≠ sid := by
        intro hh
        exact hnd.1 (hh ▸ List.mem_map.mpr ⟨(sid, st), h, rfl⟩)
      rw [ih hnd.2 h hfires]
      split_ifs with hc <;> simp [List.filter_cons, tmoPred_mk, hk]

theorem keys_stFold (tmo now : Nat) :
    ∀ (es ss : List (String × SensorState)),
      (stFoldTimeout tmo now es ss).map Prod.fst = ss.map Prod.fst := by
  intro es
  induction es with
  | nil => intro ss; rfl
  | cons e es ih =>
    intro ss
    unfold stFoldTimeout
    rw [List.foldl_cons]
    by_cases hc : timeoutFires tmo now e
    · simp only [hc, if_true]
      rw [show (List.foldl (fun acc e =>
          if timeoutFires tmo now e then modifySensor acc e.1 timeoutState
          else acc) (modifySensor ss e.1 timeoutState) es) =
          stFoldTimeout tmo now es (modifySensor ss e.1 timeoutState) from rfl]
      rw [ih, keys_modifySensor]
    · simp only [hc, Bool.false_eq_true, if_false]
      exact ih ss

theorem lookup_stFold_not_fires (tmo now : Nat) (sid : String) :
    ∀ (es ss : List (String × SensorState)),
      (∀ st, (sid, st) ∈ es → timeoutFires tmo now (sid, st) = false) →
      lookupState (stFoldTimeout tmo now es ss) sid = lookupState ss sid := by
  intro es
  induction es with
  | nil => intro ss _; rfl
  | cons e es ih =>
    intro ss hall
    unfold stFoldTimeout
    rw [List.foldl_cons]
    have htail : ∀ st, (sid, st) ∈ es → timeoutFires tmo now (sid, st) = false :=
      fun st hst => hall st (List.mem_cons_of_mem e hst)
    by_cases hk : e.1 = sid
    · have he : e = (sid, e.2) := by
        rcases e with ⟨k, st0⟩; simp at hk; rw [hk]
      have hf : timeoutFires tmo now e = false := by
        rw [he]; exact hall e.2 (he ▸ List.mem_cons_self e es)
      simp only [hf, Bool.false_eq_true, if_false]
      exact ih ss htail
    · by_cases hc : timeoutFires tmo now e
      · simp only [hc, if_true]
        rw [show (List.foldl (fun acc e =>
            if timeoutFires tmo now e then modifySensor acc e.1 timeoutState
            else acc) (modifySensor ss e.1 timeoutState) es) =
            stFoldTimeout tmo now es (modifySensor ss e.1 timeoutState) from rfl]
        rw [ih (modifySensor ss e.1 timeoutState) htail]
        exact lookupState_modify_ne ss e.1 sid timeoutState
          (fun hh => hk hh.symm)
      · simp only [hc, Bool.false_eq_true, if_false]
        exact ih ss htail

theorem lookup_stFold_fired (tmo now : Nat) (sid : String) (st : SensorState) :
    ∀ (es ss : List (String × SensorState)),
      (es.map Prod.fst).Nodup → (sid, st) ∈ es →
      timeoutFires tmo now (sid, st) = true →
      lookupState (stFoldTimeout tmo now es ss) sid =
        (lookupState ss sid).map timeoutState := by
  intro es
  induction es with
  | nil => intro ss _ hmem; simp at hmem
  | cons e es ih =>
    intro ss hnd hmem hfires
    simp only [List.map_cons, List.nodup_cons] at hnd
    unfold stFoldTimeout
    rw [List.foldl_cons]
    rcases List.mem_cons.mp hmem with h | h
    · cases h.symm
      simp only [hfires, if_true]
      rw [show (List.foldl (fun acc e =>
          if timeoutFires tmo now e then modifySensor acc e.1 timeoutState
          else acc) (modifySensor ss sid timeoutState) es) =
          stFoldTimeout tmo now es (modifySensor ss sid timeoutState) from rfl]
      rw [lookup_stFold_not_fires tmo now sid es
        (modifySensor ss sid timeoutState)
        (fun st2 hst2 =>
          absurd (List.mem_map.mpr ⟨(sid, st2), hst2, rfl⟩) hnd.1)]
      exact lookupState_modify_self ss sid timeoutState
    · have hk : e.1 ≠ sid := by
        intro hh
        exact hnd.1 (hh ▸ List.mem_map.mpr ⟨(sid, st), h, rfl⟩)
      by_cases hc : timeoutFires tmo now e
      · simp only [hc, if_true]
        rw [show (List.foldl (fun acc e =>
            if timeoutFires tmo now e then modifySensor acc e.1 timeoutState
            else acc) (modifySensor ss e.1 timeoutState) es) =
            stFoldTimeout tmo now es (modifySensor ss e.1 timeoutState) from rfl]
        rw [ih (modifySensor ss e.1 timeoutState) hnd.2 h hfires]
        rw [lookupState_modify_ne ss e.1 sid timeoutState
          (fun hh => hk hh.symm)]
      · simp only [hc, Bool.false_eq_true, if_false]
        exact ih ss hnd.2 h hfires

/-- C7: one timeout occurrence produces exactly one `active -> timeout`
transition and exactly one timeout event.  The check fires for a sensor iff
its status is "active", it has a recorded `last_seen`, and the elapsed time
strictly exceeds the configured threshold; when it fires, that sensor gets
exactly one event in that pass, its stored status becomes "timeout", and a
later pass (at any time) fires no further event for it; when it does not
fire, the sensor's state is untouched and no event names it. -/
theorem C7_timeout_once (m : Monitor) (now now2 : Nat) (sid : String)
    (st : SensorState) (ls : Nat)
    (hnd : (m.sensor_states.map Prod.fst).Nodup)
    (hmem : (sid, st) ∈ m.sensor_states) :
    (¬ (st.status = "active" ∧ ∃ ls2, st.last_seen = some ls2 ∧
          (m.sensor_timeout : Int) < (now : Int) - (ls2 : Int)) →
      ((checkSensorTimeouts m now).2.filter (tmoPred sid) = [] ∧
       lookupState (checkSensorTimeouts m now).1.sensor_states sid = some st)) ∧
    (st.status = "active" → st.last_seen = some ls →
     (m.sensor_timeout : Int) < (now : Int) - (ls : Int) →
      ((checkSensorTimeouts m now).2.filter (tmoPred sid) =
         [mkTimeoutEvent now (sid, st)] ∧
       lookupState (checkSensorTimeouts m now).1.sensor_states sid =
         some (timeoutState st) ∧
       (checkSensorTimeouts (checkSensorTimeouts m now).1 now2).2.filter
         (tmoPred sid) = [])) := by
  have hlook : lookupState m.sensor_states sid = some st :=
    lookupState_eq_some_of_mem m.sensor_states sid st hnd hmem
  have huniq : ∀ st2, (sid, st2) ∈ m.sensor_states → st2 = st := by
    intro st2 hst2
    have := lookupState_eq_some_of_mem m.sensor_states sid st2 hnd hst2
    rw [hlook] at this
    exact (Option.some.injEq .. ▸ this).symm
  constructor
  · intro hnot
    have hf : timeoutFires m.sensor_timeout now (sid, st) = false := by
      rcases hb : timeoutFires m.sensor_timeout now (sid, st) with _ | _
      · rfl
      · exact absurd ((timeoutFires_iff m.sensor_timeout now (sid, st)).mp hb) hnot
    have hall : ∀ st2, (sid, st2) ∈ m.sensor_states →
        timeoutFires m.sensor_timeout now (sid, st2) = false := by
      intro st2 hst2
      rw [huniq st2 hst2]
      exact hf
    constructor
    · rw [checkSensorTimeouts_snd]
      exact tmoFilter_not_fires m.sensor_timeout now sid m.sensor_states hall
    · rw [checkSensorTimeouts_fst]
      simp only []
      rw [lookup_stFold_not_fires m.sensor_timeout now sid m.sensor_states
        m.sensor_states hall]
      exact hlook
  · intro hstatus hls hlt
    have hf : timeoutFires m.sensor_timeout now (sid, st) = true :=
      (timeoutFires_iff m.sensor_timeout now (sid, st)).mpr
        ⟨hstatus, ls, hls, hlt⟩
    have hev : (checkSensorTimeouts m now).2.filter (tmoPred sid) =
        [mkTimeoutEvent now (sid, st)] := by
      rw [checkSensorTimeouts_snd]
      exact tmoFilter_fired m.sensor_timeout now sid st m.sensor_states hnd hmem hf
    have hlook2 : lookupState (checkSensorTimeouts m now).1.sensor_states sid =
        some (timeoutState st) := by
      rw [checkSensorTimeouts_fst]
      simp only []
      rw [lookup_stFold_fired m.sensor_timeout now sid st m.sensor_states
        m.sensor_states hnd hmem hf, hlook]
      rfl
    refine ⟨hev, hlook2, ?_⟩
    have hkeys2 : (checkSensorTimeouts m now).1.sensor_states.map Prod.fst =
        m.sensor_states.map Prod.fst := by
      rw [checkSensorTimeouts_fst]
      exact keys_stFold m.sensor_timeout now m.sensor_states m.sensor_states
    have hnd2 : ((checkSensorTimeouts m now).1.sensor_states.map Prod.fst).Nodup := by
      rw [hkeys2]; exact hnd
    have htmo2 : (checkSensorTimeouts m now).1.sensor_timeout = m.sensor_timeout := by
      rw [checkSensorTimeouts_fst]
    rw [checkSensorTimeouts_snd, htmo2]
    refine tmoFilter_not_fires m.sensor_timeout now2 sid
      (checkSensorTimeouts m now).1.sensor_states ?_
    intro st2 hst2
    have hl2 := lookupState_eq_some_of_mem
      (checkSensorTimeouts m now).1.sensor_states sid st2 hnd2 hst2
    rw [hlook2] at hl2
    have hst2eq : st2 = timeoutState st := (Option.some.injEq .. ▸ hl2).symm
    rcases hb : timeoutFires m.sensor_timeout now2 (sid, st2) with _ | _
    · rfl
    · have hp := (timeoutFires_iff m.sensor_timeout now2 (sid, st2)).mp hb
      rw [hst2eq] at hp
      exact absurd hp.1 (by simp [timeoutState])

/-- Witness for C7 at a concrete run: sensor `s1` was last seen at time 0 and
the check runs at time 301 (elapsed 301 s > 300 s threshold), then again at
time 999. -/
theorem C7_witness :
    (¬ (activeState1.status = "active" ∧ ∃ ls2, activeState1.last_seen = some ls2 ∧
          (mOneActive.sensor_timeout : Int) < (301 : Int) - (ls2 : Int)) →
      ((checkSensorTimeouts mOneActive 301).2.filter (tmoPred "s1") = [] ∧
       lookupState (checkSensorTimeouts mOneActive 301).1.sensor_states "s1" =
         some activeState1)) ∧
    (activeState1.status = "active" → activeState1.last_seen = some 0 →
     (mOneActive.sensor_timeout : Int) < (301 : Int) - ((0 : Nat) : Int) →
      ((checkSensorTimeouts mOneActive 301).2.filter (tmoPred "s1") =
         [mkTimeoutEvent 301 ("s1", activeState1)] ∧
       lookupState (checkSensorTimeouts mOneActive 301).1.sensor_states "s1" =
         some (timeoutState activeState1) ∧
       (checkSensorTimeouts (checkSensorTimeouts mOneActive 301).1 999).2.filter
         (tmoPred "s1") = [])) :=
  C7_timeout_once mOneActive 301 999 "s1" activeState1 0 (by decide) (by decide)

/-- C1: at a concrete timed-out sensor (`s1` active, last seen at 0, checked
at 301 s with a 300 s threshold) the timeout pass emits exactly one
sensor-failure event, but raises no alert at all: the alert counter stays 0
and the alert queue stays empty, even though the severity map of
`_get_alert_severity` reserves severity "high" for the `sensor_timeout` alert
type — that map entry is unreachable because `_handle_sensor_timeout` never
calls `_raise_alert`. -/
theorem C1_timeout_raises_no_alert :
    (checkSensorTimeouts mOneActive 301).2 =
      [mkTimeoutEvent 301 ("s1", activeState1)] ∧
    (checkSensorTimeouts mOneActive 301).1.alerts_raised = 0 ∧
    (checkSensorTimeouts mOneActive 301).1.alert_queue = [] ∧
    getAlertSeverity "sensor_timeout" = "high" := by
  refine ⟨by decide, by decide, by decide, rfl⟩

/-- C6 counterexample: a monitor constructed with `buffer_size = 0` (the
constructor accepts it) makes `get_monitoring_stats` raise a
`ZeroDivisionError` in `buffer_utilization` — modelled as `none` — already in
its initial, never-started state. -/
theorem C6_counterexample :
    getMonitoringStats (initMonitor 1 0) 5 = none ∧
    (initMonitor 1 0).total_readings = 0 ∧
    (initMonitor 1 0).start_time = none := by
  refine ⟨rfl, rfl, rfl⟩

/-- C6 (amended): for every monitor whose configured buffer capacity is
positive (as the default 1000 is), `get_monitoring_stats` never raises, in
every state including before monitoring has started: it returns a snapshot
whose `anomaly_rate` is `anomalies_detected / max 1 total_readings` (defined
even at `total_readings = 0`, where it is 0 since no anomaly has been
counted), and whose `uptime_seconds` is 0 when no start time is recorded. -/
theorem C6_stats_safe (m : Monitor) (now : Nat) (hbs : 0 < m.buffer_size) :
    ∃ st, getMonitoringStats m now = some st ∧
      st.anomaly_rate =
        (m.anomalies_detected : ℚ) / ((max 1 m.total_readings : Nat) : ℚ) ∧
      (m.total_readings = 0 → m.anomalies_detected = 0 → st.anomaly_rate = 0) ∧
      (m.start_time = none → st.uptime_seconds = 0) := by
  have hne : m.buffer_size ≠ 0 := by omega
  refine ⟨_, by unfold getMonitoringStats; rw [if_neg hne], rfl, ?_, ?_⟩
  · intro _ h0
    simp [h0]
  · intro h0
    simp [h0]

/-- Witness for C6 at a fresh default monitor (capacity 1000, not started,
no readings). -/
theorem C6_witness :
    ∃ st, getMonitoringStats (initMonitor 1 1000) 5 = some st ∧
      st.anomaly_rate = ((initMonitor 1 1000).anomalies_detected : ℚ) /
        ((max 1 (initMonitor 1 1000).total_readings : Nat) : ℚ) ∧
      ((initMonitor 1 1000).total_readings = 0 →
        (initMonitor 1 1000).anomalies_detected = 0 → st.anomaly_rate = 0) ∧
      ((initMonitor 1 1000).start_time = none → st.uptime_seconds = 0) :=
  C6_stats_safe (initMonitor 1 1000) 5 (by decide)

theorem psr_events_one (m : Monitor) (now : Nat)
    (f : Reading → Option (Bool × ℚ)) (r : Reading) (sid : String)
    (t0 : Nat) (s : ℚ) (h : r.sensor_id = some sid)
    (ht : r.timestamp = some t0) (hf : f r = some (true, s)) :
    (processSingleReading m now (some f) r).2.length = 1 := by
  simp [processSingleReading, handleAnomaly, enrich, h, ht, hf]

theorem processReadings_anomaly_queue (now : Nat) (clf : Classifier) :
    ∀ (rs : List Reading) (m : Monitor),
      (processReadings m now clf rs).1.anomaly_queue =
        m.anomaly_queue ++ (processReadings m now clf rs).2 := by
  intro rs
  induction rs with
  | nil => intro m; simp [processReadings]
  | cons r rs ih =>
    intro m
    rw [processReadings_cons]
    simp only []
    rw [ih (processSingleReading m now clf r).1, psr_anomaly_queue,
      List.append_assoc]

theorem processReadings_buffer_le (now : Nat) (clf : Classifier) :
    ∀ (rs : List Reading) (m : Monitor),
      m.data_buffer.length ≤ m.buffer_size →
      (processReadings m now clf rs).1.data_buffer.length ≤ m.buffer_size := by
  intro rs
  induction rs with
  | nil => intro m h; simpa [processReadings] using h
  | cons r rs ih =>
    intro m h
    rw [processReadings_cons]
    simp only []
    have hstep : (processSingleReading m now clf r).1.data_buffer.length ≤
        (processSingleReading m now clf r).1.buffer_size := by
      rw [psr_buffer, psr_buffer_size]
      split_ifs with hv
      · unfold boundedAppend
        rw [length_lastN]
        omega
      · exact h
    have := ih (processSingleReading m now clf r).1 hstep
    rwa [psr_buffer_size] at this

theorem anomalyQueue_growth (now : Nat) :
    ∀ (n : Nat) (m : Monitor),
      (processReadings m now alwaysAnomalous
        (List.replicate n (rdg "s1" 1 5))).1.anomaly_queue.length =
      m.anomaly_queue.length + n := by
  intro n
  induction n with
  | zero => intro m; simp [processReadings]
  | succ n ih =>
    intro m
    rw [List.replicate_succ, processReadings_cons]
    simp only []
    rw [ih (processSingleReading m now alwaysAnomalous (rdg "s1" 1 5)).1]
    rw [psr_anomaly_queue, List.length_append]
    have hone : (processSingleReading m now alwaysAnomalous (rdg "s1" 1 5)).2.length = 1 :=
      psr_events_one m now (fun _ => some (true, 1)) (rdg "s1" 1 5) "s1" 1 1 rfl rfl rfl
    rw [hone]
    omega

theorem analyzeAlerts_preserves (m : Monitor) (now : Nat) :
    (analyzeAlerts m now).1.sensor_states = m.sensor_states ∧
    (analyzeAlerts m now).1.data_buffer = m.data_buffer ∧
    (analyzeAlerts m now).1.consecutive_threshold = m.consecutive_threshold ∧
    (analyzeAlerts m now).1.anomaly_rate_threshold = m.anomaly_rate_threshold ∧
    (analyzeAlerts m now).1.alert_queue.length =
      m.alert_queue.length + (analyzeAlerts m now).2.length := by
  rw [analyzeAlerts_fst]
  refine ⟨rfl, rfl, rfl, rfl, ?_⟩
  simp

theorem alertQueue_growth (now : Nat) :
    ∀ (n : Nat) (m : Monitor),
      m.sensor_states = mHot1.sensor_states →
      m.consecutive_threshold = 3 →
      m.data_buffer.length = 3 →
      (analyzeNTimes now n m).alert_queue.length = m.alert_queue.length + n := by
  intro n
  induction n with
  | zero => intro m _ _ _; simp [analyzeNTimes]
  | succ n ih =>
    intro m hss hth hbuf
    have hp := analyzeAlerts_preserves m now
    have hlen1 : (analyzeAlerts m now).2.length = 1 := by
      have hrate : rateAlertsList m.anomaly_rate_threshold now m.data_buffer = [] := by
        unfold rateAlertsList
        rw [if_neg (by simp [hbuf])]
      rw [analyzeAlerts_snd, hth, hss, hrate, List.append_nil,
        show mHot1.sensor_states = [("s1", hotState1)] from by decide,
        consAlertsList_cons,
        if_pos (by decide : (3 : Nat) ≤ hotState1.consecutive_anomalies)]
      rfl
    show (analyzeNTimes now n (analyzeAlerts m now).1).alert_queue.length = _
    rw [ih (analyzeAlerts m now).1 (by rw [hp.1, hss]) (by rw [hp.2.2.1, hth])
      (by rw [hp.2.1, hbuf])]
    rw [hp.2.2.2.2, hlen1]
    omega

/-- C2 counterexample: the event queues are not bounded.  A reachable run
that ingests 1001 anomalous readings leaves 1001 elements in the anomaly
queue, and 1001 alert-analysis passes over a sensor stuck above the
consecutive threshold leave 1001 elements in the alert queue — both beyond
1000, the only configured capacity in the monitor (the data-buffer size);
nothing is ever evicted, and the same construction exceeds any other fixed
capacity. -/
theorem C2_counterexample :
    (processReadings (initMonitor 1 1000) 0 alwaysAnomalous
      (List.replicate 1001 (rdg "s1" 1 5))).1.anomaly_queue.length = 1001 ∧
    (analyzeNTimes 7 1001 mHot1).alert_queue.length = 1001 ∧
    1000 < 1001 := by
  refine ⟨?_, ?_, by norm_num⟩
  · rw [anomalyQueue_growth 0 1001 (initMonitor 1 1000)]
    simp [initMonitor]
  · rw [alertQueue_growth 7 1001 mHot1 rfl rfl (by decide)]
    have h0 : mHot1.alert_queue.length = 0 := by decide
    omega

/-- C2 (amended): the data buffer is bounded (ring buffer of the configured
capacity) but the anomaly and alert event queues are unbounded FIFO queues
with no overflow policy: every emitted event or alert is appended, so the
queues grow by exactly the number of events emitted until a consumer drains
them. -/
theorem C2_unbounded_queues (m : Monitor) (now : Nat) (clf : Classifier)
    (rs : List Reading) :
    (processReadings m now clf rs).1.anomaly_queue =
      m.anomaly_queue ++ (processReadings m now clf rs).2 ∧
    (analyzeAlerts m now).1.alert_queue =
      m.alert_queue ++ (analyzeAlerts m now).2 ∧
    (m.data_buffer.length ≤ m.buffer_size →
      (processReadings m now clf rs).1.data_buffer.length ≤ m.buffer_size) :=
  ⟨processReadings_anomaly_queue now clf rs m,
   by rw [analyzeAlerts_fst],
   processReadings_buffer_le now clf rs m⟩

/-- Witness for C2 (amended) at a concrete run: two anomalous readings and
one alert-analysis pass on a hot sensor. -/
theorem C2_witness :
    (processReadings mHot1 0 alwaysAnomalous
        [rdg "s1" 4 5, rdg "s1" 5 5]).1.anomaly_queue =
      mHot1.anomaly_queue ++ (processReadings mHot1 0 alwaysAnomalous
        [rdg "s1" 4 5, rdg "s1" 5 5]).2 ∧
    (analyzeAlerts mHot1 0).1.alert_queue =
      mHot1.alert_queue ++ (analyzeAlerts mHot1 0).2 ∧
    (mHot1.data_buffer.length ≤ mHot1.buffer_size →
      (processReadings mHot1 0 alwaysAnomalous
        [rdg "s1" 4 5, rdg "s1" 5 5]).1.data_buffer.length ≤ mHot1.buffer_size) :=
  C2_unbounded_queues mHot1 0 alwaysAnomalous [rdg "s1" 4 5, rdg "s1" 5 5]

theorem decDigitVal_digitChar (d : Nat) (h : d < 10) :
    decDigitVal (Nat.digitChar d) = d := by
  interval_cases d <;> rfl

theorem toDigitsCore_val :
    ∀ (fuel n : Nat) (acc : List Char), n < fuel →
      (Nat.toDigitsCore 10 fuel n acc).foldl
        (fun a c => 10 * a + decDigitVal c) 0 =
      acc.foldl (fun a c => 10 * a + decDigitVal c) n := by
  intro fuel
  induction fuel with
  | zero => intro n acc h; omega
  | succ fuel ih =>
    intro n acc h
    by_cases h0 : n / 10 = 0
    · have hn : n < 10 := by
        by_contra hge
        push_neg at hge
        have : 0 < n / 10 := Nat.div_pos hge (by norm_num)
        omega
      simp only [Nat.toDigitsCore, h0, if_true, List.foldl_cons]
      rw [decDigitVal_digitChar (n % 10) (Nat.mod_lt n (by norm_num))]
      rw [Nat.mod_eq_of_lt hn]
      norm_num
    · have h10 : 10 ≤ n := by
        by_contra hlt
        push_neg at hlt
        exact h0 (Nat.div_eq_of_lt hlt)
      have hlt : n / 10 < fuel := by
        have hdiv : n / 10 < n := Nat.div_lt_self (by omega) (by norm_num)
        omega
      simp only [Nat.toDigitsCore, h0, if_false]
      rw [ih (n / 10) (Nat.digitChar (n % 10) :: acc) hlt]
      simp only [List.foldl_cons]
      rw [decDigitVal_digitChar (n % 10) (Nat.mod_lt n (by norm_num))]
      rw [Nat.div_add_mod]

theorem decValue_toDigits (n : Nat) : decValue (Nat.toDigits 10 n) = n := by
  unfold decValue Nat.toDigits
  rw [toDigitsCore_val (n + 1) n [] (Nat.lt_succ_self n)]
  rfl

theorem natRepr_inj {a b : Nat} (h : (Nat.repr a).data = (Nat.repr b).data) :
    a = b := by
  have hd : Nat.toDigits 10 a = Nat.toDigits 10 b := by
    simpa [Nat.repr, List.asString] using h
  have h2 := congrArg decValue hd
  rwa [decValue_toDigits, decValue_toDigits] at h2

theorem alertIdOf_inj_time (ty : String) {t1 t2 : Nat}
    (h : alertIdOf t1 ty = alertIdOf t2 ty) : t1 = t2 := by
  have hd := congrArg String.data h
  simp only [alertIdOf, String.data_append, List.append_assoc] at hd
  have h1 := List.append_cancel_left hd
  have h2 := List.append_cancel_right h1
  exact natRepr_inj h2

theorem alertIdOf_last2 (t : Nat) (ty : String) (hne : ty.data ≠ []) :
    (alertIdOf t ty).data.getLast? = ty.data.getLast? := by
  rcases hh : ty.data.getLast? with _ | c
  · exact absurd (List.getLast?_eq_none_iff.mp hh) hne
  · simp only [alertIdOf, String.data_append, List.append_assoc,
      List.getLast?_append, hh]
    rfl

theorem alertIdOf_ne_of_last {t1 t2 : Nat} {ty1 ty2 : String}
    (h1 : ty1.data ≠ []) (h2 : ty2.data ≠ [])
    (hl : ty1.data.getLast? ≠ ty2.data.getLast?) :
    alertIdOf t1 ty1 ≠ alertIdOf t2 ty2 := by
  intro hid
  have hgl := congrArg (fun s : String => s.data.getLast?) hid
  simp only at hgl
  rw [alertIdOf_last2 t1 ty1 h1, alertIdOf_last2 t2 ty2 h2] at hgl
  exact hl hgl

/-- C8 (amended): alert ids separate the raising second and the alert type,
but not the alert itself: any two alerts raised at different integer seconds
or with different (known) alert types have different `alert_id`s, while two
alerts of the same type raised within the same second share one id (see the
counterexample). -/
theorem C8_alert_ids_distinct (m1 m2 : Monitor) (t1 t2 : Nat)
    (ty1 ty2 : String) (d1 d2 : AlertData)
    (h1 : ty1 ∈ knownAlertTypes) (h2 : ty2 ∈ knownAlertTypes)
    (hne : (t1, ty1) ≠ (t2, ty2)) :
    (raiseAlert m1 t1 ty1 d1).2.alert_id ≠
      (raiseAlert m2 t2 ty2 d2).2.alert_id := by
  have hne2 : t1 ≠ t2 ∨ ty1 ≠ ty2 := by
    by_contra hc
    push_neg at hc
    exact hne (by rw [hc.1, hc.2])
  show alertIdOf t1 ty1 ≠ alertIdOf t2 ty2
  simp only [knownAlertTypes, List.mem_cons, List.not_mem_nil, or_false] at h1 h2
  rcases h1 with rfl | rfl | rfl | rfl <;> rcases h2 with rfl | rfl | rfl | rfl <;>
    first
      | (rcases hne2 with hne2 | hne2
         · intro hid
           exact hne2 (alertIdOf_inj_time _ hid)
         · exact absurd rfl hne2)
      | exact alertIdOf_ne_of_last (by decide) (by decide) (by decide)

/-- Witness for C8 (amended) at concrete inputs: a `consecutive_anomalies`
alert at second 10 and a `high_anomaly_rate` alert at the same second get
different ids. -/
theorem C8_witness :
    (raiseAlert (initMonitor 1 1000) 10 "consecutive_anomalies"
        (consAlertData 10 ("s1", defaultSensorState))).2.alert_id ≠
      (raiseAlert (initMonitor 1 1000) 10 "high_anomaly_rate"
        (consAlertData 10 ("s1", defaultSensorState))).2.alert_id :=
  C8_alert_ids_distinct (initMonitor 1 1000) (initMonitor 1 1000) 10 10
    "consecutive_anomalies" "high_anomaly_rate"
    (consAlertData 10 ("s1", defaultSensorState))
    (consAlertData 10 ("s1", defaultSensorState))
    (by decide) (by decide) (by decide)

/-- C8 counterexample: one alert-analysis pass over two hot sensors raises
two distinct alerts (their `data.sensor_id`s differ) that carry the same
`alert_id`, because the id is built only from the integer second and the
alert type. -/
theorem C8_counterexample :
    (analyzeAlerts mTwoHot 7).2.map Alert.alert_id =
      ["alert_7_consecutive_anomalies", "alert_7_consecutive_anomalies"] ∧
    (analyzeAlerts mTwoHot 7).2.map (fun a => a.data.sensor_id) =
      [some "s1", some "s2"] := by
  constructor
  · decide
  · decide

end CableGuard
